import Mathlib

/-!
A shallow embedding of the figure-generation script
"generate_section3_figures (1).py" (the repository's only source file).

The script defines four plotting functions
(plot_system_architecture, plot_haa_uq_mechanism, plot_pi_cmdr_pipeline,
plot_lpc_curriculum), a save_figure helper that writes each figure as a
PNG and a PDF into the fixed directory paper_figures_section3, a driver
main() that runs Figures 3 and 4 under try/except, and a __main__ block
that calls main() and then runs Figures 5 and 6 under a second
try/except loop.

The embedding models:
  - the effect trace of each function (figure creation, file writes,
    figure close, the log lines the claims mention);
  - a small filesystem state (directories plus a path-to-size file map
    with overwrite semantics) on which the traces act;
  - matplotlib's Figure.savefig as a write of a rendered file whose
    size is given by an arbitrary render function (only positivity of
    the size is ever assumed, reflecting that a successful savefig
    never produces an empty file);
  - NumPy's global pseudo-random generator abstractly as a
    deterministic generator over a Nat state: np.random.seed(n) resets
    the state to a deterministic function of n, and every draw
    (rand, uniform, randn, beta) consumes state deterministically.
    Only this determinism and the seeding discipline matter for the
    claims, not the actual Mersenne-Twister stream.
-/

namespace Section3Figures

/-- The four figures defined in the script (Figures 3 to 6 of the paper). -/
inductive FigureId where
  | fig3
  | fig4
  | fig5
  | fig6
  deriving DecidableEq, Repr

/-- The name each plotting function passes to save_figure
(source lines 308, 464, 744, 1006). -/
def figureName : FigureId → String
  | FigureId.fig3 => "figure3_system_architecture"
  | FigureId.fig4 => "figure4_haa_uq_mechanism"
  | FigureId.fig5 => "figure5_pi_cmdr_pipeline"
  | FigureId.fig6 => "figure6_lpc_curriculum"

/-- OUTPUT_DIR = 'paper_figures_section3' (source line 26). -/
def OUTPUT_DIR : String := "paper_figures_section3"

/-- os.path.join for a directory and a file name. -/
def pathJoin (dir file : String) : String := dir ++ "/" ++ file

/-- png_path = os.path.join(OUTPUT_DIR, f'(name).png') (source line 31). -/
def pngPath (name : String) : String := pathJoin OUTPUT_DIR (name ++ ".png")

/-- pdf_path = os.path.join(OUTPUT_DIR, f'(name).pdf') (source line 32). -/
def pdfPath (name : String) : String := pathJoin OUTPUT_DIR (name ++ ".pdf")

/-- Observable effects of the script: figure creation (plt.figure),
a file write (fig.savefig), closing the current figure (plt.close),
and a console log line (print).  Drawing calls (boxes, arrows, text)
change only the in-memory figure and produce no external effect, so
they carry no event. -/
inductive Event where
  | createFigure : FigureId → Event
  | write : String → Nat → Event
  | closeFigure : Event
  | log : String → Event
  deriving DecidableEq, Repr

/-- save_figure(fig, name) (source lines 29-35): writes the PNG, then
the PDF, then prints a confirmation line.  The render function gives
the size of the file matplotlib produces at each path. -/
def save_figure (render : String → Nat) (name : String) : List Event :=
  [Event.write (pngPath name) (render (pngPath name)),
   Event.write (pdfPath name) (render (pdfPath name)),
   Event.log ("Saved: " ++ name)]

/-- plot_system_architecture (source lines 42-309): creates one figure,
draws boxes/arrows/text (no external effect), calls save_figure once
with 'figure3_system_architecture', then plt.close(). -/
def plot_system_architecture (render : String → Nat) : List Event :=
  Event.createFigure FigureId.fig3 ::
    save_figure render "figure3_system_architecture" ++ [Event.closeFigure]

/-- plot_haa_uq_mechanism (source lines 316-465): one figure, drawing
calls, one save_figure with 'figure4_haa_uq_mechanism', plt.close(). -/
def plot_haa_uq_mechanism (render : String → Nat) : List Event :=
  Event.createFigure FigureId.fig4 ::
    save_figure render "figure4_haa_uq_mechanism" ++ [Event.closeFigure]

/-- plot_pi_cmdr_pipeline (source lines 510-745): one figure, drawing
calls, one save_figure with 'figure5_pi_cmdr_pipeline', plt.close(). -/
def plot_pi_cmdr_pipeline (render : String → Nat) : List Event :=
  Event.createFigure FigureId.fig5 ::
    save_figure render "figure5_pi_cmdr_pipeline" ++ [Event.closeFigure]

/-- plot_lpc_curriculum (source lines 752-1007): one figure, drawing
calls, one save_figure with 'figure6_lpc_curriculum', plt.close(). -/
def plot_lpc_curriculum (render : String → Nat) : List Event :=
  Event.createFigure FigureId.fig6 ::
    save_figure render "figure6_lpc_curriculum" ++ [Event.closeFigure]

/-- Dispatch from a figure id to its plotting function's trace. -/
def figureTrace (render : String → Nat) : FigureId → List Event
  | FigureId.fig3 => plot_system_architecture render
  | FigureId.fig4 => plot_haa_uq_mechanism render
  | FigureId.fig5 => plot_pi_cmdr_pipeline render
  | FigureId.fig6 => plot_lpc_curriculum render

/-- The list `figures` iterated by main() (source lines 482-485):
only Figures 3 and 4. -/
def mainFigures : List (String × FigureId) :=
  [("Figure 3: System Architecture", FigureId.fig3),
   ("Figure 4: HAA-UQ Mechanism", FigureId.fig4)]

/-- The list `additional_figures` iterated by the __main__ block
(source lines 1019-1022): Figures 5 and 6. -/
def additionalFigures : List (String × FigureId) :=
  [("Figure 5: PI-CMDR Pipeline", FigureId.fig5),
   ("Figure 6: LPC Curriculum", FigureId.fig6)]

/-- One iteration of the driver loops (source lines 487-494 and
1024-1031): print the progress line, then run the figure's function
inside try/except; on an exception, print the error and move on.
The outcome of each plotting function is supplied by `results`
(ok with its trace, or error with the exception message); the numeric
index prefix of the progress line is console formatting and is
modelled by the figure's name alone. -/
def figBlock (results : FigureId → Except String (List Event))
    (entry : String × FigureId) : List Event :=
  Event.log ("Generating " ++ entry.1) ::
    match results entry.2 with
    | Except.ok tr => tr
    | Except.error e => [Event.log ("ERROR: " ++ e)]

/-- The driver loop over a figure list: each entry is processed exactly
once, in list order (source lines 487-494 and 1024-1031). -/
def runFigures (results : FigureId → Except String (List Event))
    (figs : List (String × FigureId)) : List Event :=
  figs.flatMap (figBlock results)

/-- The outcome map of a run in which every plotting function
succeeds and produces its trace. -/
def allOk (render : String → Nat) : FigureId → Except String (List Event) :=
  fun fid => Except.ok (figureTrace render fid)

/-- The effect trace of one full successful run of the script's
__main__ block (source lines 1010-1031): main() iterates mainFigures,
then the additional loop iterates additionalFigures. -/
def scriptTrace (render : String → Nat) : List Event :=
  runFigures (allOk render) mainFigures ++ runFigures (allOk render) additionalFigures

/-- The (path, size) pairs of the write events of a trace, in order. -/
def writesOf (tr : List Event) : List (String × Nat) :=
  tr.filterMap (fun e =>
    match e with
    | Event.write p sz => some (p, sz)
    | _ => none)

/-- The paths of the write events of a trace, in order. -/
def writePaths (tr : List Event) : List String :=
  tr.filterMap (fun e =>
    match e with
    | Event.write p _ => some p
    | _ => none)

/-- How many log events a trace contains.  Inside a plotting
function's trace the only print is save_figure's confirmation line
(source line 35), so on such a trace this counts save_figure calls. -/
def saveLogCount (tr : List Event) : Nat :=
  (tr.filter (fun e =>
    match e with
    | Event.log _ => true
    | _ => false)).length

/-- Effect of an event on the number of open matplotlib figures. -/
def openDelta : Event → Int
  | Event.createFigure _ => 1
  | Event.closeFigure => -1
  | _ => 0

/-- Net change a trace makes to the number of open figures. -/
def netOpen (tr : List Event) : Int :=
  (tr.map openDelta).sum

/-- Filesystem state: the set of existing directories and a map from
file path to file size.  The file map is kept as an association list
in which a write removes any previous entry for its path (overwrite
semantics of fig.savefig on an existing file). -/
structure Fs where
  dirs : List String
  files : List (String × Nat)
  deriving DecidableEq, Repr

/-- The set of file paths present in the filesystem. -/
def filePaths (fs : Fs) : List String := fs.files.map Prod.fst

/-- Writing a file: replaces any existing entry at the same path. -/
def fsWrite (p : String) (sz : Nat) (fs : Fs) : Fs :=
  ⟨fs.dirs, (p, sz) :: fs.files.filter (fun e => e.1 != p)⟩

/-- os.makedirs(d, exist_ok) (source line 27): errors iff the
directory exists and exist_ok is false; with exist_ok=True an
existing directory is accepted unchanged. -/
def makedirs (d : String) (existOk : Bool) (fs : Fs) : Except String Fs :=
  if fs.dirs.contains d then
    if existOk then Except.ok fs
    else Except.error ("FileExistsError: " ++ d)
  else Except.ok ⟨d :: fs.dirs, fs.files⟩

/-- The (always successful) effect of makedirs with exist_ok=True. -/
def makedirsPure (d : String) (fs : Fs) : Fs :=
  if fs.dirs.contains d then fs else ⟨d :: fs.dirs, fs.files⟩

/-- Effect of a single event on the filesystem: only write events
touch it. -/
def applyEvent (fs : Fs) (e : Event) : Fs :=
  match e with
  | Event.write p sz => fsWrite p sz fs
  | _ => fs

/-- Effect of a whole trace on the filesystem, in order. -/
def applyTrace (tr : List Event) (fs : Fs) : Fs :=
  tr.foldl applyEvent fs

/-- One run of the script against a filesystem: the import-time
os.makedirs(OUTPUT_DIR, exist_ok=True) (source line 27), then the
writes of the four figures in driver order. -/
def scriptRunFs (render : String → Nat) (fs : Fs) : Except String Fs :=
  (makedirs OUTPUT_DIR true fs).map (applyTrace (scriptTrace render))

/-- The pure result of one (always successful) run of the script. -/
def scriptRunPure (render : String → Nat) (fs : Fs) : Fs :=
  applyTrace (scriptTrace render) (makedirsPure OUTPUT_DIR fs)

/-- save_figure acting on the filesystem with per-write success flags
(source lines 29-35): the PNG write happens first; if a write raises,
the exception propagates immediately, so a PDF failure leaves the PNG
already written.  Returns the filesystem reached and whether an
exception was raised. -/
def save_figure_fs (render : String → Nat) (name : String)
    (pngOk pdfOk : Bool) (fs : Fs) : Fs × Bool :=
  if pngOk then
    let fs1 := fsWrite (pngPath name) (render (pngPath name)) fs
    if pdfOk then
      (fsWrite (pdfPath name) (render (pdfPath name)) fs1, false)
    else (fs1, true)
  else (fs, true)

/-- Abstract model of NumPy's global PRNG state. -/
abbrev RandState := Nat

/-- np.random.seed(n): the state becomes a deterministic function of
n alone, independent of the previous state. -/
def seedState (n : Nat) : RandState := n

/-- One raw draw from the generator (a linear-congruential stand-in
for the Mersenne-Twister step: only determinism matters). -/
def nextRand (s : RandState) : Nat × RandState :=
  let t := (1103515245 * s + 12345) % 2 ^ 31
  (t, t)

/-- k consecutive raw draws, threading the state. -/
def drawMany : Nat → RandState → List Nat × RandState
  | 0, s => ([], s)
  | k + 1, s =>
    let (x, s1) := nextRand s
    let (xs, s2) := drawMany k s1
    (x :: xs, s2)

/-- plot_system_architecture makes no np.random call: its content uses
only literal coordinates and strings (source lines 42-309). -/
def plot_system_architecture_draws (_s : RandState) : List Nat := []

/-- The pseudo-random draws of plot_haa_uq_mechanism, in source order:
np.random.seed(42) (line 325), then rand(8,8) for patch_img (line 332),
rand(4,4) for regional_img (line 345), rand(8,8) for combined
(line 377), uniform(0.01,0.03,(8,8)) for std_attn (line 392); haa_attn
is built from np.ones and is not random (line 405). -/
def plot_haa_uq_mechanism_draws (_s : RandState) : List Nat :=
  let s := seedState 42
  let (patch_img, s) := drawMany 64 s
  let (regional_img, s) := drawMany 16 s
  let (combined, s) := drawMany 64 s
  let (std_attn, _) := drawMany 64 s
  patch_img ++ regional_img ++ combined ++ std_attn

/-- The pseudo-random draws of plot_pi_cmdr_pipeline:
np.random.seed(42) (line 519), then rand(10,10) for depth_visual
(line 530); depth_geo and every later map are deterministic functions
of it (lines 549-552, 662, 722). -/
def plot_pi_cmdr_pipeline_draws (_s : RandState) : List Nat :=
  let s := seedState 42
  let (depth_visual, _) := drawMany 100 s
  depth_visual

/-- The pseudo-random draws of plot_lpc_curriculum, in source order:
np.random.seed(42) (line 761), then rand(6) for feature_values
(line 771), randn(150) for z1 and for z2 (lines 818-819), and
beta(i+1, 6-i, 30) for each of the five stages (line 873). -/
def plot_lpc_curriculum_draws (_s : RandState) : List Nat :=
  let s := seedState 42
  let (feature_values, s) := drawMany 6 s
  let (z1, s) := drawMany 150 s
  let (z2, s) := drawMany 150 s
  let (stage_diffs, _) := drawMany 150 s
  feature_values ++ z1 ++ z2 ++ stage_diffs

/-- The pseudo-random content of a figure as a function of the global
generator state at the moment its function is entered. -/
def figureDraws : FigureId → RandState → List Nat
  | FigureId.fig3, s => plot_system_architecture_draws s
  | FigureId.fig4, s => plot_haa_uq_mechanism_draws s
  | FigureId.fig5, s => plot_pi_cmdr_pipeline_draws s
  | FigureId.fig6, s => plot_lpc_curriculum_draws s

/-- The observable output of one script run as a function of the
command line and the environment.  The source never reads sys.argv or
os.environ (neither name occurs in the file), so both parameters are
unused, exactly as in the script. -/
def scriptOutputs (render : String → Nat) (s₀ : RandState)
    (_argv : List String) (_env : List (String × String)) :
    List Event × List (List Nat) :=
  (scriptTrace render,
   (mainFigures ++ additionalFigures).map (fun entry => figureDraws entry.2 s₀))

/-- episodes_per_stage = [180, 200, 260, 280, 220] (source line 895). -/
def episodes_per_stage : List Nat := [180, 200, 260, 280, 220]

/-- Running sums starting from acc (the tail of np.cumsum). -/
def cumsumFrom (acc : Nat) : List Nat → List Nat
  | [] => []
  | x :: xs => (acc + x) :: cumsumFrom (acc + x) xs

/-- np.cumsum on a list of naturals: the list of running sums. -/
def cumsum (l : List Nat) : List Nat := cumsumFrom 0 l

/-- cumulative = np.cumsum([0] + episodes_per_stage) (source line 896). -/
def cumulative : List Nat := cumsum (0 :: episodes_per_stage)

/-- The number shown by the timeline's total text, cumulative[-1]
(source line 912): f'Total: (cumulative[-1]) episodes (vs 2000 uniform)'. -/
def displayedTotalEpisodes : Nat := cumulative.getLastD 0

/-- Every numeric literal occurring in the source of the training
progression timeline panel, lines 892-917 (grid-spec indices 1, 2, 4;
fontsizes 8, 9, 11; the stage list 180, 200, 260, 280, 220; the list
element 0; range bound 5; alpha values 0.7 and 0.3; linewidth 2;
the index expressions i+1 and cumulative[-1] (literals 1 and -1);
division by 2; ylim -0.5 and 0.5; text offsets -0.35, 0.5, 0.85;
the comparison text values 2000, 36, 0.85; pad 0.5).  Each literal is
kept unnormalised as (numerator, denominator), e.g. 0.7 as (7, 10). -/
def timelineSourceLiterals : List (Int × Nat) :=
  [(1, 1), (2, 1), (4, 1), (11, 1), (180, 1), (200, 1), (260, 1),
   (280, 1), (220, 1), (0, 1), (5, 1), (7, 10), (9, 1), (-1, 1),
   (-1, 2), (1, 2), (3, 10), (-7, 20), (2000, 1), (36, 1), (17, 20),
   (8, 1)]

/-- A concrete render function used to instantiate theorems: every
path renders to a one-byte file. -/
def constRender : String → Nat := fun _ => 1

/-- A concrete outcome map in which Figure 3's function raises and
every other figure succeeds with an empty trace. -/
def failFig3 : FigureId → Except String (List Event) :=
  fun fid =>
    match fid with
    | FigureId.fig3 => Except.error "boom"
    | _ => Except.ok []

/-- Membership in the file map after a write: the written path,
or any previously present path. -/
theorem mem_filePaths_fsWrite (p q : String) (sz : Nat) (fs : Fs) :
    p ∈ filePaths (fsWrite q sz fs) ↔ p = q ∨ p ∈ filePaths fs := by
  unfold filePaths fsWrite
  simp only [List.map_cons, List.mem_cons]
  constructor
  · rintro (h | h)
    · exact Or.inl h
    · rcases List.mem_map.1 h with ⟨en, he, rfl⟩
      exact Or.inr (List.mem_map.2 ⟨en, (List.mem_filter.1 he).1, rfl⟩)
  · rintro (h | h)
    · exact Or.inl h
    · by_cases hpq : p = q
      · exact Or.inl hpq
      · rcases List.mem_map.1 h with ⟨en, he, rfl⟩
        refine Or.inr (List.mem_map.2 ⟨en, List.mem_filter.2 ⟨he, ?_⟩, rfl⟩)
        simpa using hpq

/-- makedirs with exist_ok=True leaves the file map untouched. -/
theorem filePaths_makedirsPure (d : String) (fs : Fs) :
    filePaths (makedirsPure d fs) = filePaths fs := by
  unfold makedirsPure
  split <;> rfl

/-- Membership in the file map after applying a trace: a path written
by the trace, or any previously present path. -/
theorem mem_filePaths_applyTrace (tr : List Event) (fs : Fs) (p : String) :
    p ∈ filePaths (applyTrace tr fs) ↔ p ∈ writePaths tr ∨ p ∈ filePaths fs := by
  induction tr generalizing fs with
  | nil => simp [applyTrace, writePaths]
  | cons e tr ih =>
    cases e with
    | write q sz =>
      have h1 : applyTrace (Event.write q sz :: tr) fs
          = applyTrace tr (fsWrite q sz fs) := rfl
      have h2 : writePaths (Event.write q sz :: tr) = q :: writePaths tr := rfl
      rw [h1, ih, h2, mem_filePaths_fsWrite]
      simp only [List.mem_cons]
      tauto
    | createFigure fid => simpa [applyTrace, writePaths, applyEvent] using ih fs
    | closeFigure => simpa [applyTrace, writePaths, applyEvent] using ih fs
    | log m => simpa [applyTrace, writePaths, applyEvent] using ih fs

/-- A run of the script never raises: makedirs is called with
exist_ok=True and each savefig overwrites silently. -/
theorem scriptRunFs_ok (render : String → Nat) (fs : Fs) :
    scriptRunFs render fs = Except.ok (scriptRunPure render fs) := by
  unfold scriptRunFs scriptRunPure makedirs makedirsPure
  cases hc : fs.dirs.contains OUTPUT_DIR <;> simp [hc, Except.map]

/-- The block a list member contributes to a flatMap can be isolated
as a contiguous factor. -/
theorem flatMap_block_split {α β : Type} (f : α → List β) {a : α}
    {L : List α} (h : a ∈ L) :
    ∃ s t, L.flatMap f = s ++ f a ++ t := by
  induction L with
  | nil => cases h
  | cons b bs ih =>
    rcases List.mem_cons.1 h with rfl | hm
    · exact ⟨[], bs.flatMap f, by simp⟩
    · rcases ih hm with ⟨s, t, hst⟩
      exact ⟨f b ++ s, t, by simp [hst]⟩

/-- writesOf distributes over flatMap blocks. -/
theorem writesOf_flatMap {α : Type} (f : α → List Event) (L : List α) :
    writesOf (L.flatMap f) = L.flatMap (fun x => writesOf (f x)) := by
  induction L with
  | nil => rfl
  | cons b bs ih =>
    simp only [List.flatMap_cons, writesOf, List.filterMap_append] at ih ⊢
    rw [ih]

/-- Claim C1: every figure function performs exactly one call to
save_figure (one confirmation line in its trace) and thereby writes
exactly one PNG and one PDF into the output directory, the pair named
by the figure's identifier, each with non-zero size (for any render
function producing non-empty files, as matplotlib does on success). -/
theorem figure_writes_one_pair (render : String → Nat)
    (hr : ∀ p, 0 < render p) (fid : FigureId) :
    saveLogCount (figureTrace render fid) = 1 ∧
    writesOf (figureTrace render fid) =
      [(pngPath (figureName fid), render (pngPath (figureName fid))),
       (pdfPath (figureName fid), render (pdfPath (figureName fid)))] ∧
    0 < render (pngPath (figureName fid)) ∧
    0 < render (pdfPath (figureName fid)) ∧
    (∃ rest, pngPath (figureName fid) = OUTPUT_DIR ++ "/" ++ rest) ∧
    (∃ rest, pdfPath (figureName fid) = OUTPUT_DIR ++ "/" ++ rest) := by
  refine ⟨?_, ?_, hr _, hr _,
    ⟨figureName fid ++ ".png", rfl⟩, ⟨figureName fid ++ ".pdf", rfl⟩⟩ <;>
    cases fid <;> rfl

/-- Witness for C1: at the concrete one-byte render function and
Figure 3, the hypothesis holds and the trace contains exactly one
save_figure confirmation. -/
theorem figure_writes_one_pair_witness :
    0 < constRender "p" ∧
    saveLogCount (figureTrace constRender FigureId.fig3) = 1 :=
  ⟨Nat.one_pos,
    (figure_writes_one_pair constRender (fun _ => Nat.one_pos) FigureId.fig3).1⟩

/-- Claim C2: if a figure's plotting function raises, the driver loop
logs the error and still processes every other entry of its list; each
entry contributes exactly one block, in list order, so no figure is
retried and no recovery beyond skipping happens.  This holds for any
outcome map and any figure list, in particular for main's list and for
the __main__ block's additional list. -/
theorem driver_skips_failed_figure
    (results : FigureId → Except String (List Event))
    (figs : List (String × FigureId)) (entry : String × FigureId) (e : String)
    (hmem : entry ∈ figs) (herr : results entry.2 = Except.error e) :
    runFigures results figs = figs.flatMap (figBlock results) ∧
    figBlock results entry =
      [Event.log ("Generating " ++ entry.1), Event.log ("ERROR: " ++ e)] ∧
    Event.log ("ERROR: " ++ e) ∈ runFigures results figs ∧
    ∀ other ∈ figs, ∃ s t,
      runFigures results figs = s ++ figBlock results other ++ t := by
  have hblock : figBlock results entry =
      [Event.log ("Generating " ++ entry.1), Event.log ("ERROR: " ++ e)] := by
    unfold figBlock
    rw [herr]
  refine ⟨rfl, hblock, ?_, ?_⟩
  · rcases flatMap_block_split (figBlock results) hmem with ⟨s, t, hst⟩
    unfold runFigures
    rw [hst, hblock]
    simp
  · intro other hother
    exact flatMap_block_split (figBlock results) hother

/-- Witness for C2: with Figure 3's function raising "boom" and main's
actual list, the error is logged in the driver's trace. -/
theorem driver_skips_failed_figure_witness :
    ("Figure 3: System Architecture", FigureId.fig3) ∈ mainFigures ∧
    failFig3 FigureId.fig3 = Except.error "boom" ∧
    Event.log ("ERROR: " ++ "boom") ∈ runFigures failFig3 mainFigures :=
  ⟨by decide, rfl,
    (driver_skips_failed_figure failFig3 mainFigures
      ("Figure 3: System Architecture", FigureId.fig3) "boom"
      (by decide) rfl).2.2.1⟩

/-- Claim C3 counterexample: the total-episodes text of Figure 6's
timeline displays cumulative[-1], the last running sum of
np.cumsum([0] + episodes_per_stage) computed at figure-generation
time; its value 1140 is not one of the stage-length literals and does
not occur among the numeric literals of the timeline panel's source,
so not every displayed number is a literal constant. -/
theorem displayed_total_not_a_literal :
    displayedTotalEpisodes = cumulative.getLastD 0 ∧
    cumulative = cumsum (0 :: episodes_per_stage) ∧
    displayedTotalEpisodes = 1140 ∧
    (∀ q ∈ timelineSourceLiterals, q.1 ≠ 1140 * (q.2 : Int)) ∧
    ∀ x ∈ episodes_per_stage, x ≠ displayedTotalEpisodes := by
  refine ⟨rfl, rfl, rfl, by decide, by decide⟩

/-- Claim C3 amended: the numeric values displayed in the figures are
either literal constants from the source or values computed at
generation time from such constants; in particular Figure 6's
total-episodes text displays the cumulative sum of the literal stage
lengths (1140), not a source literal, while the per-stage texts
display the literals themselves. -/
theorem displayed_total_is_cumsum :
    displayedTotalEpisodes = episodes_per_stage.sum ∧
    displayedTotalEpisodes = 1140 ∧
    episodes_per_stage = [180, 200, 260, 280, 220] := by
  refine ⟨rfl, rfl, rfl⟩

/-- Claim C4: each figure's pseudo-random content is independent of
the global generator state at entry: the three randomized functions
reseed with the fixed seed 42 on their first line and Figure 3 draws
nothing, so two invocations in any order relative to the other figure
functions produce identical content.  In this embedding each figure's
content is a function of the shared generator state alone, reflecting
that the functions share no other data structure. -/
theorem figure_draws_stateless (fid : FigureId) (s₁ s₂ : RandState) :
    figureDraws fid s₁ = figureDraws fid s₂ := by
  cases fid <;> rfl

/-- Claim C5 counterexample: main's figure list contains only
Figures 3 and 4, so one invocation of main does not generate
Figures 5 and 6. -/
theorem main_generates_only_two_figures :
    mainFigures.map Prod.snd = [FigureId.fig3, FigureId.fig4] ∧
    FigureId.fig5 ∉ mainFigures.map Prod.snd ∧
    FigureId.fig6 ∉ mainFigures.map Prod.snd := by decide

/-- Claim C5 amended: main iterates only Figures 3 and 4; the __main__
block calls main and then iterates Figures 5 and 6, so one run of the
script's entry point generates all four figures in sequence, each
figure's save confirmation appearing in the full run's trace. -/
theorem script_run_generates_all_figures (render : String → Nat) :
    mainFigures.map Prod.snd = [FigureId.fig3, FigureId.fig4] ∧
    (mainFigures ++ additionalFigures).map Prod.snd =
      [FigureId.fig3, FigureId.fig4, FigureId.fig5, FigureId.fig6] ∧
    ∀ fid : FigureId,
      Event.log ("Saved: " ++ figureName fid) ∈ scriptTrace render := by
  refine ⟨by decide, by decide, ?_⟩
  intro fid
  cases fid <;>
    simp [scriptTrace, runFigures, allOk, figureTrace, mainFigures,
      additionalFigures, figBlock, plot_system_architecture,
      plot_haa_uq_mechanism, plot_pi_cmdr_pipeline, plot_lpc_curriculum,
      save_figure, figureName]

/-- Claim C6: re-running the generator never raises (the output
directory is re-created with exist_ok=True and each savefig
overwrites), and the set of file paths after two runs equals the set
after one run. -/
theorem rerun_overwrites_without_error (render : String → Nat) (fs : Fs) :
    scriptRunFs render fs = Except.ok (scriptRunPure render fs) ∧
    scriptRunFs render (scriptRunPure render fs) =
      Except.ok (scriptRunPure render (scriptRunPure render fs)) ∧
    ∀ p : String,
      p ∈ filePaths (scriptRunPure render (scriptRunPure render fs)) ↔
        p ∈ filePaths (scriptRunPure render fs) := by
  refine ⟨scriptRunFs_ok render fs, scriptRunFs_ok render _, ?_⟩
  intro p
  unfold scriptRunPure
  simp only [mem_filePaths_applyTrace, filePaths_makedirsPure]
  tauto

/-- Claim C7: the driver is sequential, so the write events of a run
decompose into one contiguous block per figure, in list order, for any
outcome map; in a fully successful run the writes are exactly the four
figures' write pairs, one figure's pair completing before the next
figure's pair begins. -/
theorem figure_writes_do_not_interleave
    (results : FigureId → Except String (List Event))
    (figs : List (String × FigureId)) (render : String → Nat) :
    writesOf (runFigures results figs) =
      figs.flatMap (fun entry => writesOf (figBlock results entry)) ∧
    writesOf (scriptTrace render) =
      writesOf (plot_system_architecture render) ++
        writesOf (plot_haa_uq_mechanism render) ++
        writesOf (plot_pi_cmdr_pipeline render) ++
        writesOf (plot_lpc_curriculum render) := by
  constructor
  · exact writesOf_flatMap (figBlock results) figs
  · rfl

/-- Claim C8: the script reads neither command-line arguments nor
environment variables, so runs differing only in argv or environment
produce identical traces and figure contents. -/
theorem outputs_independent_of_argv_env (render : String → Nat)
    (s₀ : RandState) (argv₁ argv₂ : List String)
    (env₁ env₂ : List (String × String)) :
    scriptOutputs render s₀ argv₁ env₁ = scriptOutputs render s₀ argv₂ env₂ := rfl

/-- Claim C9: save_figure writes the PNG strictly before the PDF
(indices 0 and 1 of its trace), and when the PDF write raises with the
PNG write succeeded, the exception propagates with the PNG already on
disk and the PDF file present only if it existed before: a failed
figure can leave a PNG-without-PDF pair. -/
theorem png_written_before_pdf (render : String → Nat) (fid : FigureId)
    (fs : Fs) :
    save_figure render (figureName fid) =
      [Event.write (pngPath (figureName fid))
         (render (pngPath (figureName fid))),
       Event.write (pdfPath (figureName fid))
         (render (pdfPath (figureName fid))),
       Event.log ("Saved: " ++ figureName fid)] ∧
    (save_figure_fs render (figureName fid) true false fs).2 = true ∧
    pngPath (figureName fid) ∈
      filePaths (save_figure_fs render (figureName fid) true false fs).1 ∧
    (pdfPath (figureName fid) ∈
        filePaths (save_figure_fs render (figureName fid) true false fs).1 ↔
      pdfPath (figureName fid) ∈ filePaths fs) := by
  have hne : pdfPath (figureName fid) ≠ pngPath (figureName fid) := by
    cases fid <;> decide
  have hres : (save_figure_fs render (figureName fid) true false fs).1 =
      fsWrite (pngPath (figureName fid))
        (render (pngPath (figureName fid))) fs := rfl
  refine ⟨by cases fid <;> rfl, rfl, ?_, ?_⟩
  · rw [hres, mem_filePaths_fsWrite]
    exact Or.inl rfl
  · rw [hres, mem_filePaths_fsWrite]
    simp [hne]

/-- Claim C10: every figure function's trace creates one figure and
ends with plt.close() after its save, so its net effect on the number
of open figures is zero, and a full successful run of the script
leaves no figure open. -/
theorem figure_closed_after_save (render : String → Nat) (fid : FigureId) :
    netOpen (figureTrace render fid) = 0 ∧
    (figureTrace render fid).getLast? = some Event.closeFigure ∧
    Event.log ("Saved: " ++ figureName fid) ∈ figureTrace render fid ∧
    netOpen (scriptTrace render) = 0 := by
  refine ⟨?_, ?_, ?_, rfl⟩
  · cases fid <;> rfl
  · cases fid <;> rfl
  · cases fid <;>
      simp [figureTrace, plot_system_architecture, plot_haa_uq_mechanism,
        plot_pi_cmdr_pipeline, plot_lpc_curriculum, save_figure, figureName]

end Section3Figures
